import Mathlib

/-!
Shallow embedding of `src/ai.py`: the deterministic conversation state
machine (`ConversationManager`, `get_next_response`) and the two-tier cost
estimator (`estimate_distance_and_cost`).

Modelling conventions:
* Python `float` currency amounts are modelled as exact rationals `ℚ`.
  Every arithmetic step the source performs on them is a finite decimal
  computation, so the spec's "within floating-point tolerance" comparisons
  become exact comparisons here.
* The external generative-model call (`genai`), `os.getenv`, and the JSON
  extraction from the oracle's response text are abstracted into an
  `OracleOutcome` environment parameter: `noApiKey`, `callFailed` and
  `noJson` are the three primary-path failure modes of the source (missing
  `GEMINI_API_KEY`, an exception from the network call, and no parseable
  brace-delimited JSON object in the response); `json r` is a successfully
  parsed object whose five optional numeric fields mirror the per-field
  `result.get(...)` defaulting of the source.
* A Python `TypeError` escaping an f-string format (formatting the value
  `None` with the `:.2f` format spec raises) is modelled by the `raised`
  constructor of `StepOutcome`, which carries the conversation state as
  mutated up to the raise point, exactly as the Python object would be.
* The possibility that `estimate_distance_and_cost` raises an unexpected
  exception (the outer `except` of the vehicle-selection branch of
  `get_next_response`) is modelled by the `EstimatorBehavior.raises`
  environment choice; `EstimatorBehavior.normal oracle` runs the embedded
  estimator with the given oracle outcome.
-/

/-- Is `pat` a prefix of `s` (character lists)? -/
def charsStartWith : List Char → List Char → Bool
  | _, [] => true
  | [], _ :: _ => false
  | a :: as, b :: bs => a == b && charsStartWith as bs

/-- Does `s` contain `pat` as a contiguous sublist? -/
def charsContain : List Char → List Char → Bool
  | [], pat => pat.isEmpty
  | c :: rest, pat => charsStartWith (c :: rest) pat || charsContain rest pat

/-- Python's substring test `pat in s`. -/
def strContains (s pat : String) : Bool := charsContain s.data pat.data

/-- Python's `str.lower()` (ASCII case mapping, which covers every string
the source compares). -/
def pyLower (s : String) : String := ⟨s.data.map Char.toLower⟩

/-- Python's `str.strip()`: drop leading and trailing whitespace. -/
def pyStrip (s : String) : String :=
  ⟨(((s.data.dropWhile Char.isWhitespace).reverse).dropWhile Char.isWhitespace).reverse⟩

/-- Python's `str.capitalize()`: upper-case the first character,
lower-case the rest. -/
def pyCapitalize (s : String) : String :=
  match s.data with
  | [] => ""
  | c :: rest => ⟨c.toUpper :: rest.map Char.toLower⟩

/-- Rendering of a rational with the `:.2f` format spec (two digits after
the point).  The exact tie-breaking of Python float formatting is
irrelevant to every property below; only the shape of the text matters. -/
def fmtQ2 (q : ℚ) : String :=
  let c : ℤ := round (q * 100)
  let sign := if c < 0 then "-" else ""
  let n := c.natAbs
  let cents := n % 100
  sign ++ toString (n / 100) ++ "." ++ (if cents < 10 then "0" else "") ++ toString cents

/-- Rendering of a rational with the `:.1f` format spec. -/
def fmtQ1 (q : ℚ) : String :=
  let c : ℤ := round (q * 10)
  let sign := if c < 0 then "-" else ""
  let n := c.natAbs
  sign ++ toString (n / 10) ++ "." ++ toString (n % 10)

/-- The fixed booking hand-off link of the source. -/
def BOOKING_URL : String := "http://localhost:3000/book"

/-- One entry of the rate table: base fare and per-minute labor rate. -/
structure RateEntry where
  base : ℚ
  labor_per_min : ℚ
deriving DecidableEq

/-- The `vehicle_rates` table of `estimate_distance_and_cost`, in source
order. -/
def vehicle_rates : List (String × RateEntry) :=
  [("pickup", ⟨42.92, 1.62⟩), ("van", ⟨77.00, 2.02⟩),
   ("minibox", ⟨144.51, 2.30⟩), ("bigbox", ⟨230.00, 4.99⟩)]

/-- Rate resolution of `estimate_distance_and_cost`: lower-case the
vehicle type, and if it is not a key of the table fall back to the key
`van`.  The final `getD` default can never fire because `van` is in the
table; it only makes the lookup total. -/
def rateFor (vehicle_type : String) : RateEntry :=
  let vehicle_lower := pyLower vehicle_type
  let vehicle_lower := if (vehicle_rates.lookup vehicle_lower).isSome then vehicle_lower else "van"
  (vehicle_rates.lookup vehicle_lower).getD ⟨77.00, 2.02⟩

/-- The JSON object extracted from a successful oracle response.  Each
field is optional: the source defaults each missing field individually
with `result.get(key, default)`. -/
structure OracleJson where
  distance_km : Option ℚ
  labor_minutes : Option ℤ
  distance_cost : Option ℚ
  labor_cost : Option ℚ
  total_cost : Option ℚ
deriving DecidableEq

/-- Outcome of the primary (oracle) path of the estimator, chosen by the
environment: the three failure modes of the source, or a parsed object. -/
inductive OracleOutcome where
  | noApiKey
  | callFailed
  | noJson
  | json (result : OracleJson)
deriving DecidableEq

/-- True on the three primary-path failure modes. -/
def OracleOutcome.isFailure : OracleOutcome → Bool
  | .json _ => false
  | _ => true

/-- The dictionary returned by `estimate_distance_and_cost`. -/
structure EstimateResult where
  success : Bool
  distance_km : ℚ
  estimated_labor_minutes : ℤ
  distance_cost : ℚ
  labor_cost : ℚ
  total_cost : ℚ
  reasoning : String
deriving DecidableEq

/-- The deterministic fallback path of `estimate_distance_and_cost`:
classify `item_description` by case-insensitive substring in precedence
order apartment/studio, furniture, box/small, default. -/
def fallback_estimate (item_description : String) (r : RateEntry) : EstimateResult :=
  let item_lower := pyLower item_description
  let dl : ℚ × ℤ :=
    if strContains item_lower "apartment" || strContains item_lower "studio" then (12, 60)
    else if strContains item_lower "furniture" then (10, 45)
    else if strContains item_lower "box" || strContains item_lower "small" then (8, 25)
    else (10, 40)
  let distance_cost := dl.1 * 0.8
  let labor_cost := (dl.2 : ℚ) * r.labor_per_min
  { success := true
    distance_km := dl.1
    estimated_labor_minutes := dl.2
    distance_cost := distance_cost
    labor_cost := labor_cost
    total_cost := r.base + distance_cost + labor_cost
    reasoning := "Estimated based on typical moves" }

/-- `estimate_distance_and_cost` from the source: resolve the rates, try
the oracle path (per-field defaulting on a parsed object), and on any
primary-path failure fall through to the deterministic fallback.  `pickup`
and `dropoff` only ever appear inside the oracle prompt, which is part of
the abstracted oracle call, so the returned value never depends on them. -/
def estimate_distance_and_cost (pickup dropoff vehicle_type item_description : String)
    (oracle : OracleOutcome) : EstimateResult :=
  let r := rateFor vehicle_type
  match oracle with
  | .json result =>
      { success := true
        distance_km := result.distance_km.getD 10
        estimated_labor_minutes := result.labor_minutes.getD 45
        distance_cost := result.distance_cost.getD 8.0
        labor_cost := result.labor_cost.getD 73.0
        total_cost := result.total_cost.getD (r.base + 81.0)
        reasoning := "Calculated estimate" }
  | _ => fallback_estimate item_description r

/-- The `data` dictionary of `ConversationManager`: seven fixed keys, each
optionally unset (`None`). -/
structure ConvData where
  service_type : Option String
  item_description : Option String
  pickup_location : Option String
  dropoff_location : Option String
  vehicle_type : Option String
  distance_km : Option ℚ
  estimated_cost : Option ℚ
deriving DecidableEq

/-- All seven entries unset, as built by `ConversationManager.__init__`. -/
def ConvData.init : ConvData := ⟨none, none, none, none, none, none, none⟩

/-- The conversation state: current state tag and collected data. -/
structure ConversationManager where
  state : String
  data : ConvData
deriving DecidableEq

/-- The initial conversation state. -/
def ConversationManager.init : ConversationManager := ⟨"greeting", ConvData.init⟩

/-- `reset` re-runs `__init__`. -/
def ConversationManager.reset (_c : ConversationManager) : ConversationManager :=
  ConversationManager.init

/-- `is_complete`: the four required entries are set to truthy (non-empty)
values. -/
def ConversationManager.is_complete (c : ConversationManager) : Bool :=
  [c.data.pickup_location, c.data.dropoff_location, c.data.vehicle_type,
    c.data.item_description].all
    (fun o => match o with | some s => !(s == "") | none => false)

/-- Greeting keywords, in source order. -/
def greeting_words : List String := ["hi", "hello", "hey", "start", "help", "begin"]

/-- Service keywords and names, in source (insertion) order. -/
def service_keywords : List (String × String) :=
  [("home", "Home Move"), ("apartment", "Apartment Move"), ("office", "Office Move"),
   ("furniture", "Furniture Delivery"), ("donation", "Donation Pickup")]

/-- Vehicle options, in source order. -/
def vehicle_options : List String := ["pickup", "van", "minibox", "bigbox"]

/-- Confirmation keywords, in source order. -/
def yes_words : List String :=
  ["yes", "confirm", "book", "proceed", "ok", "yeah", "sure", "let\x27s go"]

/-- Cancellation keywords, in source order. -/
def no_words : List String := ["no", "cancel", "back", "restart", "different"]

/-- Behaviour of the estimator call as seen from `get_next_response`:
either it runs normally against a given oracle outcome, or it raises an
unexpected exception (caught by the engine's own handler). -/
inductive EstimatorBehavior where
  | normal (oracle : OracleOutcome)
  | raises
deriving DecidableEq

/-- Result of one dialogue step: a normal reply dictionary, or a raised
exception carrying the conversation state as mutated before the raise. -/
inductive StepOutcome where
  | ok (reply : String) (follow_up : List String) (conv : ConversationManager)
  | raised (conv : ConversationManager)
deriving DecidableEq

/-- The generic fixed-range estimate message emitted when the estimator
call raises. -/
def generic_estimate_reply : String :=
  "Got your details! Let me calculate...\n\n💰 **Estimated Cost: $150-300** (based on typical moves)\n\nWould you like to proceed with booking?"

/-- The restart message emitted on cancellation from `confirm_estimate`. -/
def restart_reply : String :=
  "No problem! Let\x27s start fresh. 👋 What can I help you with today?"

/-- `get_next_response` from the source: the full dialogue step.  Each
branch mirrors the corresponding branch of the Python function; the two
`raised` outcomes are the two f-strings that format
`data.estimated_cost` with `:.2f`, which raise `TypeError` when that
entry is `None`. -/
def get_next_response (user_input : String) (conversation : ConversationManager)
    (est : EstimatorBehavior) : StepOutcome :=
  let user_lower := pyStrip (pyLower user_input)
  if conversation.state = "greeting" then
    if greeting_words.any (fun w => strContains user_lower w) then
      let conversation := { conversation with state := "service_type" }
      .ok ("👋 Hi there! I\x27m Digaxy Assistant. Let me help you with your moving or delivery needs.\n\nWhat service do you need?\n\n1. **Home Move** - Moving from one home to another\n2. **Apartment Move** - Apartment to apartment\n3. **Office Move** - Commercial/office moves\n4. **Furniture Delivery** - Deliver furniture items\n5. **Donation Pickup** - Schedule a donation pickup\n\nJust tell me your choice!")
        [] conversation
    else
      .ok "👋 Welcome to Digaxy! Please say \x27hello\x27 or \x27hi\x27 to get started!" [] conversation
  else if conversation.state = "service_type" then
    match service_keywords.find? (fun kv => strContains user_lower kv.1) with
    | some kv =>
      let service_found := kv.2
      let conversation :=
        { conversation with data := { conversation.data with service_type := some service_found } }
      let conversation := { conversation with state := "item_details" }
      .ok ("✓ Selected: **" ++ service_found ++ "**\n\nGreat! Now tell me **what items are you moving or what do you need delivered?**\n\nFor example: furniture, boxes, appliances, office equipment, electronics, etc.")
        [] conversation
    | none =>
      .ok "I didn\x27t understand. Please choose one:\n1. Home Move\n2. Apartment Move\n3. Office Move\n4. Furniture Delivery\n5. Donation Pickup" [] conversation
  else if conversation.state = "item_details" then
    if user_input.length > 3 then
      let conversation :=
        { conversation with data := { conversation.data with item_description := some user_input } }
      let conversation := { conversation with state := "pickup_location" }
      .ok ("✓ Items: **" ++ user_input ++ "**\n\nPerfect! Now, **what\x27s your pickup location?** (Please provide city name and specific address)")
        [] conversation
    else
      .ok "Please provide more details about what you\x27re moving. (At least 4-5 words)" [] conversation
  else if conversation.state = "pickup_location" then
    if user_input.length > 5 then
      let conversation :=
        { conversation with data := { conversation.data with pickup_location := some user_input } }
      let conversation := { conversation with state := "dropoff_location" }
      .ok ("✓ Pickup: **" ++ user_input ++ "**\n\nGot it! Now, **what\x27s your dropoff/destination location?** (Please provide city name and specific address)")
        [] conversation
    else
      .ok "Please provide a valid pickup location with city and address." [] conversation
  else if conversation.state = "dropoff_location" then
    if user_input.length > 5 then
      let conversation :=
        { conversation with data := { conversation.data with dropoff_location := some user_input } }
      let conversation := { conversation with state := "vehicle_type" }
      .ok ("✓ Dropoff: **" ++ user_input ++ "**\n\nExcellent! Now **choose a vehicle** for your move:\n\n• **Pickup** - $42.92 base (light items, small boxes)\n• **Van** - $77 base (furniture, moderate loads)\n• **Minibox** - $144.51 base (apartment moves)\n• **Bigbox** - $230 base (full house/office)\n\nWhich one works for you?")
        [] conversation
    else
      .ok "Please provide a valid dropoff location with city and address." [] conversation
  else if conversation.state = "vehicle_type" then
    match vehicle_options.find? (fun v => strContains user_lower v) with
    | some vehicle =>
      let vehicle_found := pyCapitalize vehicle
      let conversation :=
        { conversation with data := { conversation.data with vehicle_type := some vehicle_found } }
      match est with
      | .normal oracle =>
        let estimation := estimate_distance_and_cost
          (conversation.data.pickup_location.getD "") (conversation.data.dropoff_location.getD "")
          vehicle_found (conversation.data.item_description.getD "") oracle
        let conversation :=
          { conversation with data := { conversation.data with
              distance_km := some estimation.distance_km,
              estimated_cost := some estimation.total_cost } }
        let conversation := { conversation with state := "confirm_estimate" }
        let base_shown : ℚ :=
          if strContains vehicle_found "Van" then 77.00
          else if strContains vehicle_found "Pickup" then 42.92
          else if strContains vehicle_found "Minibox" then 144.51
          else 230.00
        let estimate_text :=
          "✅ **Your Estimate is Ready!**\n\n📍 **Route:** " ++ (conversation.data.pickup_location.getD "None")
          ++ " \n➜ " ++ (conversation.data.dropoff_location.getD "None")
          ++ "\n\n📏 **Distance:** ~" ++ fmtQ1 estimation.distance_km
          ++ " km\n🚐 **Vehicle:** " ++ vehicle_found
          ++ "\n📦 **Items:** " ++ (conversation.data.item_description.getD "None")
          ++ "\n\n**Cost Breakdown:**\n• Base fare: $" ++ fmtQ2 base_shown
          ++ "\n• Distance cost: $" ++ fmtQ2 estimation.distance_cost
          ++ "\n• Labor time: ~" ++ toString estimation.estimated_labor_minutes
          ++ " min ($" ++ fmtQ2 estimation.labor_cost
          ++ ")\n\n💰 **TOTAL: $" ++ fmtQ2 estimation.total_cost
          ++ "** (including taxes)\n\n*Note: This is a non-binding estimate. Final price may vary.*\n\nWould you like to **proceed with booking?** (Say \x27yes\x27 or \x27no\x27)"
        .ok estimate_text ["Say \x27yes\x27 to book or \x27no\x27 to cancel"] conversation
      | .raises =>
        let conversation := { conversation with state := "confirm_estimate" }
        .ok generic_estimate_reply ["Say \x27yes\x27 to continue or \x27no\x27 to cancel"] conversation
    | none =>
      .ok "Please choose one: **Pickup**, **Van**, **Minibox**, or **Bigbox**" [] conversation
  else if conversation.state = "confirm_estimate" then
    if yes_words.any (fun w => strContains user_lower w) then
      let conversation := { conversation with state := "booking" }
      match conversation.data.estimated_cost with
      | some total_cost =>
        .ok ("✅ **Booking Confirmed!**\n\nThank you for choosing Digaxy! Your booking details are ready:\n\n📋 **Summary:**\n• Service: " ++ (conversation.data.service_type.getD "None")
          ++ "\n• Items: " ++ (conversation.data.item_description.getD "None")
          ++ "\n• From: " ++ (conversation.data.pickup_location.getD "None")
          ++ "\n• To: " ++ (conversation.data.dropoff_location.getD "None")
          ++ "\n• Vehicle: " ++ (conversation.data.vehicle_type.getD "None")
          ++ "\n• Estimated Cost: $" ++ fmtQ2 total_cost
          ++ "\n\n🔗 **Complete your booking here:**\n" ++ BOOKING_URL
          ++ "\n\nWe\x27ll be in touch shortly to confirm your pickup time. Have a great day! 🚚✨")
          [] conversation
      | none => .raised conversation
    else if no_words.any (fun w => strContains user_lower w) then
      let conversation := conversation.reset
      let conversation := { conversation with state := "greeting" }
      .ok restart_reply [] conversation
    else
      match conversation.data.estimated_cost with
      | some c =>
        .ok ("Would you like to book this service for $" ++ fmtQ2 c ++ "? (Say \x27yes\x27 to book or \x27no\x27 to cancel)")
          [] conversation
      | none => .raised conversation
  else if conversation.state = "booking" then
    .ok "Your booking is being processed. You should receive a confirmation shortly!" [] conversation
  else
    .ok "I\x27m not sure what you mean. Could you rephrase that?" [] conversation

/-- The conversation state after one step, whether the step returned
normally or raised (a raise leaves the state as mutated so far, exactly
like the Python object). -/
def stepState (user_input : String) (b : EstimatorBehavior) (c : ConversationManager) :
    ConversationManager :=
  match get_next_response user_input c b with
  | .ok _ _ c2 => c2
  | .raised c2 => c2

/-- Run a list of utterances through the dialogue, returning the final
state. -/
def runConv (b : EstimatorBehavior) : ConversationManager → List String → ConversationManager
  | c, [] => c
  | c, u :: rest => runConv b (stepState u b c) rest

/-- Run a list of utterances through the dialogue, returning every
intermediate state (including the initial and final ones). -/
def runStates (b : EstimatorBehavior) : ConversationManager → List String → List ConversationManager
  | c, [] => [c]
  | c, u :: rest => c :: runStates b (stepState u b c) rest

/-- The negation of each state's acceptance guard, read off the guards of
`get_next_response`: `rejects tag u = true` exactly when the utterance `u`
fails the acceptance condition of state `tag`.  The `booking` state and
the defensive default branch accept every input in the sense that they
never reject with a correction prompt; `booking` has no acceptance
condition to fail, and an unknown tag never advances. -/
def rejects (tag : String) (u : String) : Bool :=
  let user_lower := pyStrip (pyLower u)
  if tag = "greeting" then !(greeting_words.any (fun w => strContains user_lower w))
  else if tag = "service_type" then !(service_keywords.any (fun kv => strContains user_lower kv.1))
  else if tag = "item_details" then !(decide (u.length > 3))
  else if tag = "pickup_location" then !(decide (u.length > 5))
  else if tag = "dropoff_location" then !(decide (u.length > 5))
  else if tag = "vehicle_type" then !(vehicle_options.any (fun v => strContains user_lower v))
  else if tag = "confirm_estimate" then
    !(yes_words.any (fun w => strContains user_lower w)) &&
      !(no_words.any (fun w => strContains user_lower w))
  else if tag = "booking" then false
  else true

/-- Estimator behaviour with the oracle unavailable (no credentials). -/
def oracleDown : EstimatorBehavior := .normal .noApiKey

/-- The utterances of the happy-path scenario. -/
def happy_utterances : List String :=
  ["hi", "home move", "three boxes and a sofa", "123 Main St, Springfield",
   "456 Oak Ave, Shelbyville", "van", "yes"]

/-- The state reached by driving the happy-path prefix up to vehicle
selection while the estimator call raises: the generic-estimate recovery
branch has run, so the tag is `confirm_estimate` but `estimated_cost` was
never set. -/
def recoveredState : ConversationManager :=
  runConv .raises ConversationManager.init
    ["hi", "home move", "three boxes and a sofa", "123 Main St, Springfield",
     "456 Oak Ave, Shelbyville", "van"]

/-- A representative `confirm_estimate` state with an estimate present. -/
def confirmDemoState : ConversationManager :=
  { state := "confirm_estimate",
    data := { ConvData.init with vehicle_type := some "Van", estimated_cost := some 100 } }

/-- A representative `vehicle_type` state with the earlier fields
collected. -/
def vehicleDemoState : ConversationManager :=
  { state := "vehicle_type",
    data := { ConvData.init with
      service_type := some "Home Move",
      item_description := some "three boxes and a sofa",
      pickup_location := some "123 Main St, Springfield",
      dropoff_location := some "456 Oak Ave, Shelbyville" } }

set_option maxRecDepth 100000 in
/-- Claim C1: the happy-path utterances, fed in order from the initial
state with the estimation oracle unavailable, drive the state tag through
greeting, service_type, item_details, pickup_location, dropoff_location,
vehicle_type, confirm_estimate, booking in that order; `estimated_cost`
is set before the "yes" step; and the final reply contains the fixed
booking URL. -/
theorem C1_happy_path :
    (runStates oracleDown ConversationManager.init happy_utterances).map ConversationManager.state =
      ["greeting", "service_type", "item_details", "pickup_location", "dropoff_location",
       "vehicle_type", "confirm_estimate", "booking"] ∧
    (runConv oracleDown ConversationManager.init (happy_utterances.take 6)).data.estimated_cost.isSome
      = true ∧
    (match get_next_response "yes"
        (runConv oracleDown ConversationManager.init (happy_utterances.take 6)) oracleDown with
      | .ok r _ _ => strContains r BOOKING_URL
      | .raised _ => false) = true := by
  refine ⟨by with_unfolding_all rfl, by with_unfolding_all rfl, by with_unfolding_all rfl⟩

set_option maxRecDepth 100000 in
/-- Claim C2 (refuted by the code): `recoveredState` is reachable — it is
built by running the happy-path prefix with the estimator call raising,
so its tag is `confirm_estimate` with `estimated_cost` unset — and the
utterance "maybe" matches neither keyword set, yet the step raises (the
re-ask f-string formats the unset estimated cost with `:.2f`) instead of
returning the re-ask reply; the state is left unchanged. -/
theorem C2_neutral_reask_raises :
    recoveredState.state = "confirm_estimate" ∧
    recoveredState.data.estimated_cost = none ∧
    rejects "confirm_estimate" "maybe" = true ∧
    get_next_response "maybe" recoveredState .raises = .raised recoveredState := by
  refine ⟨by with_unfolding_all rfl, by with_unfolding_all rfl,
    by with_unfolding_all rfl, by with_unfolding_all rfl⟩

/-- Claim C3: on any primary-path failure (missing key, call failure, or
no parseable JSON object), the estimator returns exactly the
deterministic fallback computed from the item description and the
resolved vehicle rates — no partial result, no retry, no exception. -/
theorem C3_failure_falls_back (pickup dropoff vehicle_type item_description : String)
    (oc : OracleOutcome) (h : oc.isFailure = true) :
    estimate_distance_and_cost pickup dropoff vehicle_type item_description oc =
      fallback_estimate item_description (rateFor vehicle_type) := by
  cases oc with
  | json r => simp [OracleOutcome.isFailure] at h
  | noApiKey => rfl
  | callFailed => rfl
  | noJson => rfl

theorem C3_witness :
    estimate_distance_and_cost "12 A St" "34 B St" "van" "a sofa" .callFailed =
      fallback_estimate "a sofa" (rateFor "van") :=
  C3_failure_falls_back "12 A St" "34 B St" "van" "a sofa" .callFailed rfl

set_option maxRecDepth 100000 in
/-- Claim C5 counterexample: on the oracle-success path the source passes
the oracle's `total_cost` through unchecked, so an oracle object whose
numbers do not add up yields an `EstimateResult` with
`total_cost ≠ base_fare + distance_cost + labor_cost` (999 against
77 + 1 + 1 — far beyond any floating-point tolerance). -/
theorem C5_counterexample :
    ¬ ((estimate_distance_and_cost "a" "b" "van" "x"
          (.json ⟨some 1, some 1, some 1, some 1, some 999⟩)).total_cost =
        (rateFor "van").base +
        (estimate_distance_and_cost "a" "b" "van" "x"
          (.json ⟨some 1, some 1, some 1, some 1, some 999⟩)).distance_cost +
        (estimate_distance_and_cost "a" "b" "van" "x"
          (.json ⟨some 1, some 1, some 1, some 1, some 999⟩)).labor_cost) := by
  with_unfolding_all decide

/-- Claim C5 as amended: the identity
`total_cost = base_fare + distance_cost + labor_cost` holds exactly on
every fallback-path result, and on the oracle-success path whenever the
three cost fields are all absent (so the per-field defaults 8.0, 73.0 and
base + 81.0 apply); oracle-supplied cost fields are passed through
unchecked. -/
theorem C5_amended_consistency (pickup dropoff vehicle_type item_description : String)
    (oc : OracleOutcome) :
    (oc.isFailure = true →
      (estimate_distance_and_cost pickup dropoff vehicle_type item_description oc).total_cost =
        (rateFor vehicle_type).base +
        (estimate_distance_and_cost pickup dropoff vehicle_type item_description oc).distance_cost +
        (estimate_distance_and_cost pickup dropoff vehicle_type item_description oc).labor_cost) ∧
    (∀ r, oc = .json r → r.distance_cost = none → r.labor_cost = none → r.total_cost = none →
      (estimate_distance_and_cost pickup dropoff vehicle_type item_description oc).total_cost =
        (rateFor vehicle_type).base +
        (estimate_distance_and_cost pickup dropoff vehicle_type item_description oc).distance_cost +
        (estimate_distance_and_cost pickup dropoff vehicle_type item_description oc).labor_cost) := by
  constructor
  · intro h
    cases oc with
    | json r => simp [OracleOutcome.isFailure] at h
    | noApiKey => simp [estimate_distance_and_cost, fallback_estimate]
    | callFailed => simp [estimate_distance_and_cost, fallback_estimate]
    | noJson => simp [estimate_distance_and_cost, fallback_estimate]
  · rintro r rfl h1 h2 h3
    simp [estimate_distance_and_cost, h1, h2, h3]
    rw [add_assoc]
    norm_num

theorem C5_witness :
    (estimate_distance_and_cost "a" "b" "van" "a sofa" .noApiKey).total_cost =
      (rateFor "van").base +
      (estimate_distance_and_cost "a" "b" "van" "a sofa" .noApiKey).distance_cost +
      (estimate_distance_and_cost "a" "b" "van" "a sofa" .noApiKey).labor_cost :=
  (C5_amended_consistency "a" "b" "van" "a sofa" .noApiKey).1 rfl

/-- Claim C4: on any primary-path failure the estimator's result is the
pure fallback function of the item description and the resolved vehicle
rates, independent of the pickup and dropoff texts: an item containing
"apartment" always yields distance 12 km, labor 60 min, distance cost
12 * 0.8, labor cost 60 * labor_rate and total
base + 12 * 0.8 + 60 * labor_rate; precedence is apartment/studio, then
furniture, then box/small, then the default (distance 10, labor 40). -/
theorem C4_fallback_classification (pickup dropoff vehicle_type item_description : String)
    (oc : OracleOutcome) (h : oc.isFailure = true) :
    (strContains (pyLower item_description) "apartment" = true →
      estimate_distance_and_cost pickup dropoff vehicle_type item_description oc =
        { success := true, distance_km := 12, estimated_labor_minutes := 60,
          distance_cost := 12 * 0.8,
          labor_cost := 60 * (rateFor vehicle_type).labor_per_min,
          total_cost := (rateFor vehicle_type).base + 12 * 0.8 +
            60 * (rateFor vehicle_type).labor_per_min,
          reasoning := "Estimated based on typical moves" }) ∧
    ((strContains (pyLower item_description) "apartment" ||
        strContains (pyLower item_description) "studio") = false →
      strContains (pyLower item_description) "furniture" = true →
      (estimate_distance_and_cost pickup dropoff vehicle_type item_description oc).distance_km
          = 10 ∧
      (estimate_distance_and_cost pickup dropoff vehicle_type
          item_description oc).estimated_labor_minutes = 45) ∧
    ((strContains (pyLower item_description) "apartment" ||
        strContains (pyLower item_description) "studio") = false →
      strContains (pyLower item_description) "furniture" = false →
      (strContains (pyLower item_description) "box" ||
        strContains (pyLower item_description) "small") = true →
      (estimate_distance_and_cost pickup dropoff vehicle_type item_description oc).distance_km
          = 8 ∧
      (estimate_distance_and_cost pickup dropoff vehicle_type
          item_description oc).estimated_labor_minutes = 25) ∧
    ((strContains (pyLower item_description) "apartment" ||
        strContains (pyLower item_description) "studio") = false →
      strContains (pyLower item_description) "furniture" = false →
      (strContains (pyLower item_description) "box" ||
        strContains (pyLower item_description) "small") = false →
      (estimate_distance_and_cost pickup dropoff vehicle_type item_description oc).distance_km
          = 10 ∧
      (estimate_distance_and_cost pickup dropoff vehicle_type
          item_description oc).estimated_labor_minutes = 40) := by
  have he : estimate_distance_and_cost pickup dropoff vehicle_type item_description oc =
      fallback_estimate item_description (rateFor vehicle_type) := by
    cases oc with
    | json r => simp [OracleOutcome.isFailure] at h
    | noApiKey => rfl
    | callFailed => rfl
    | noJson => rfl
  refine ⟨?_, ?_, ?_, ?_⟩
  · intro h1
    rw [he]
    simp [fallback_estimate, h1]
  · intro h1 h2
    rw [he]
    simp [fallback_estimate, h1, h2]
  · intro h1 h2 h3
    rw [he]
    simp [fallback_estimate, h1, h2, h3]
  · intro h1 h2 h3
    rw [he]
    simp [fallback_estimate, h1, h2, h3]

theorem C4_witness :
    (estimate_distance_and_cost "a" "b" "van" "my apartment" .noApiKey).distance_km = 12 ∧
    (estimate_distance_and_cost "a" "b" "van" "my apartment" .noApiKey).total_cost =
      (rateFor "van").base + 12 * 0.8 + 60 * (rateFor "van").labor_per_min := by
  have h := (C4_fallback_classification "a" "b" "van" "my apartment" .noApiKey rfl).1
    (by with_unfolding_all rfl)
  rw [h]
  exact ⟨rfl, rfl⟩

/-- Claim C6: a vehicle type whose lower-casing is not one of pickup,
van, minibox, bigbox resolves exactly as if it were "van" (the lookup is
total, so it never fails), and the matching is case-insensitive: the
result depends on the vehicle type only through its lower-casing. -/
theorem C6_vehicle_rate_resolution (pickup dropoff item_description : String)
    (oc : OracleOutcome) (vehicle_type : String) :
    ((["pickup", "van", "minibox", "bigbox"].contains (pyLower vehicle_type)) = false →
      estimate_distance_and_cost pickup dropoff vehicle_type item_description oc =
        estimate_distance_and_cost pickup dropoff "van" item_description oc) ∧
    (∀ vt2, pyLower vehicle_type = pyLower vt2 →
      estimate_distance_and_cost pickup dropoff vehicle_type item_description oc =
        estimate_distance_and_cost pickup dropoff vt2 item_description oc) := by
  have hr : ∀ v1 v2 : String, rateFor v1 = rateFor v2 →
      estimate_distance_and_cost pickup dropoff v1 item_description oc =
        estimate_distance_and_cost pickup dropoff v2 item_description oc := by
    intro v1 v2 hv
    simp only [estimate_distance_and_cost, hv]
  constructor
  · intro hc
    apply hr
    simp only [List.contains] at hc
    simp at hc
    have b1 : (pyLower vehicle_type == "pickup") = false := beq_eq_false_iff_ne.mpr hc.1
    have b2 : (pyLower vehicle_type == "van") = false := beq_eq_false_iff_ne.mpr hc.2.1
    have b3 : (pyLower vehicle_type == "minibox") = false := beq_eq_false_iff_ne.mpr hc.2.2.1
    have b4 : (pyLower vehicle_type == "bigbox") = false := beq_eq_false_iff_ne.mpr hc.2.2.2
    have hnone : vehicle_rates.lookup (pyLower vehicle_type) = none := by
      simp [vehicle_rates, List.lookup, b1, b2, b3, b4]
    simp only [rateFor, hnone]
    with_unfolding_all rfl
  · intro vt2 hl
    apply hr
    simp only [rateFor, hl]

theorem C6_witness :
    estimate_distance_and_cost "a" "b" "scooter" "stuff" .noApiKey =
      estimate_distance_and_cost "a" "b" "van" "stuff" .noApiKey ∧
    estimate_distance_and_cost "a" "b" "VAN" "stuff" .noApiKey =
      estimate_distance_and_cost "a" "b" "van" "stuff" .noApiKey :=
  ⟨(C6_vehicle_rate_resolution "a" "b" "stuff" .noApiKey "scooter").1
      (by with_unfolding_all rfl),
   (C6_vehicle_rate_resolution "a" "b" "stuff" .noApiKey "VAN").2 "van"
      (by with_unfolding_all rfl)⟩

/-- A rejected utterance leaves the conversation state untouched after a
single step, whatever the estimator behaviour. -/
theorem stepState_reject_fixed (c : ConversationManager) (b : EstimatorBehavior) (u : String)
    (h : rejects c.state u = true) : stepState u b c = c := by
  unfold stepState
  by_cases h1 : c.state = "greeting"
  · simp [rejects, greeting_words, h1] at h
    simp [get_next_response, greeting_words, h1, h]
  · by_cases h2 : c.state = "service_type"
    · simp [rejects, service_keywords, h2] at h
      simp [get_next_response, service_keywords, List.find?, h1, h2, h]
    · by_cases h3 : c.state = "item_details"
      · simp [rejects, h3] at h
        simp [get_next_response, h1, h2, h3, Nat.not_lt.mpr h]
      · by_cases h4 : c.state = "pickup_location"
        · simp [rejects, h4] at h
          simp [get_next_response, h1, h2, h3, h4, Nat.not_lt.mpr h]
        · by_cases h5 : c.state = "dropoff_location"
          · simp [rejects, h5] at h
            simp [get_next_response, h1, h2, h3, h4, h5, Nat.not_lt.mpr h]
          · by_cases h6 : c.state = "vehicle_type"
            · simp [rejects, vehicle_options, h6] at h
              simp [get_next_response, vehicle_options, List.find?, h1, h2, h3, h4, h5, h6, h]
            · by_cases h7 : c.state = "confirm_estimate"
              · simp [rejects, yes_words, no_words, h7] at h
                cases hc : c.data.estimated_cost with
                | none =>
                  simp [get_next_response, yes_words, no_words, h1, h2, h3, h4, h5, h6, h7, h, hc]
                | some x =>
                  simp [get_next_response, yes_words, no_words, h1, h2, h3, h4, h5, h6, h7, h, hc]
              · by_cases h8 : c.state = "booking"
                · simp [rejects, h8] at h
                · simp [get_next_response, h1, h2, h3, h4, h5, h6, h7, h8]

/-- Claim C7: idempotence of rejection — if an utterance fails the
current state's acceptance condition, any number of repeated steps with
that utterance changes neither the collected data nor the state tag. -/
theorem C7_rejection_idempotent (c : ConversationManager) (b : EstimatorBehavior) (u : String)
    (n : ℕ) (h : rejects c.state u = true) : (stepState u b)^[n] c = c :=
  Function.iterate_fixed (stepState_reject_fixed c b u h) n

theorem C7_witness :
    (stepState "banana" oracleDown)^[3] ConversationManager.init = ConversationManager.init :=
  C7_rejection_idempotent ConversationManager.init oracleDown "banana" 3
    (by with_unfolding_all rfl)

/-- Claim C8: from any `confirm_estimate` state, an utterance containing
a cancellation keyword (and, per the tie-break rule that the yes-set is
tested first, no confirmation keyword) produces a full reset — every
data entry unset and the tag back at `greeting` — while an utterance
containing a confirmation keyword always takes the yes branch (the next
tag is `booking`), which is exactly the yes-before-no test order. -/
theorem C8_cancellation (c : ConversationManager) (b : EstimatorBehavior) (u : String)
    (hs : c.state = "confirm_estimate") :
    (no_words.any (fun w => strContains (pyStrip (pyLower u)) w) = true →
      yes_words.any (fun w => strContains (pyStrip (pyLower u)) w) = false →
      get_next_response u c b = .ok restart_reply [] ⟨"greeting", ConvData.init⟩) ∧
    (yes_words.any (fun w => strContains (pyStrip (pyLower u)) w) = true →
      (stepState u b c).state = "booking") := by
  constructor
  · intro hno hyes
    simp [get_next_response, hs, hyes, hno, ConversationManager.reset, ConversationManager.init]
  · intro hyes
    unfold stepState
    cases hc : c.data.estimated_cost with
    | none => simp [get_next_response, hs, hyes, hc]
    | some x => simp [get_next_response, hs, hyes, hc]

theorem C8_witness :
    get_next_response "no thanks" confirmDemoState .raises =
      .ok restart_reply [] ⟨"greeting", ConvData.init⟩ ∧
    (stepState "yes, ok - no, different!" .raises confirmDemoState).state = "booking" :=
  ⟨(C8_cancellation confirmDemoState .raises "no thanks" rfl).1
      (by with_unfolding_all rfl) (by with_unfolding_all rfl),
   (C8_cancellation confirmDemoState .raises "yes, ok - no, different!" rfl).2
      (by with_unfolding_all rfl)⟩

/-- Claim C9: if the estimator call raises during the `vehicle_type`
transition, the engine catches it, still advances the tag to
`confirm_estimate`, and replies with the generic fixed-range estimate
"$150-300" — the conversation makes forward progress instead of
halting. -/
theorem C9_generic_estimate_on_raise (c : ConversationManager) (u v : String)
    (hs : c.state = "vehicle_type")
    (hv : vehicle_options.find? (fun w => strContains (pyStrip (pyLower u)) w) = some v) :
    (stepState u .raises c).state = "confirm_estimate" ∧
    (match get_next_response u c .raises with
      | .ok r _ _ => strContains r "$150-300"
      | .raised _ => false) = true := by
  constructor
  · unfold stepState
    simp [get_next_response, hs, hv]
  · simp [get_next_response, hs, hv]
    with_unfolding_all rfl

theorem C9_witness :
    (stepState "van" .raises vehicleDemoState).state = "confirm_estimate" ∧
    (match get_next_response "van" vehicleDemoState .raises with
      | .ok r _ _ => strContains r "$150-300"
      | .raised _ => false) = true :=
  C9_generic_estimate_on_raise vehicleDemoState "van" "van" rfl (by with_unfolding_all rfl)

/-- Claim C10: in the `vehicle_type` transition the matched vehicle is
stored (capitalized) before the estimator is invoked, so when the
estimator raises the recovery branch still reaches `confirm_estimate`
with `vehicle_type` set while `distance_km`, `estimated_cost` and every
other data entry are exactly as they were before the step — the
transition is not atomic with respect to the data. -/
theorem C10_vehicle_frame_on_raise (c : ConversationManager) (u v : String)
    (hs : c.state = "vehicle_type")
    (hv : vehicle_options.find? (fun w => strContains (pyStrip (pyLower u)) w) = some v) :
    get_next_response u c .raises =
      .ok generic_estimate_reply ["Say \x27yes\x27 to continue or \x27no\x27 to cancel"]
        { state := "confirm_estimate",
          data := { c.data with vehicle_type := some (pyCapitalize v) } } ∧
    (stepState u .raises c).data.distance_km = c.data.distance_km ∧
    (stepState u .raises c).data.estimated_cost = c.data.estimated_cost ∧
    (stepState u .raises c).data.service_type = c.data.service_type ∧
    (stepState u .raises c).data.item_description = c.data.item_description ∧
    (stepState u .raises c).data.pickup_location = c.data.pickup_location ∧
    (stepState u .raises c).data.dropoff_location = c.data.dropoff_location := by
  have hstep : get_next_response u c .raises =
      .ok generic_estimate_reply ["Say \x27yes\x27 to continue or \x27no\x27 to cancel"]
        { state := "confirm_estimate",
          data := { c.data with vehicle_type := some (pyCapitalize v) } } := by
    simp [get_next_response, hs, hv]
  refine ⟨hstep, ?_, ?_, ?_, ?_, ?_, ?_⟩ <;> simp [stepState, hstep]

theorem C10_witness :
    get_next_response "van" vehicleDemoState .raises =
      .ok generic_estimate_reply ["Say \x27yes\x27 to continue or \x27no\x27 to cancel"]
        { state := "confirm_estimate",
          data := { vehicleDemoState.data with vehicle_type := some (pyCapitalize "van") } } :=
  (C10_vehicle_frame_on_raise vehicleDemoState "van" "van" rfl (by with_unfolding_all rfl)).1
